import Mathlib

/-!
Verification development for the sports-market pricing engine
(`timeframe_algorithm.py` and `monthly_algorithm.py`).

Numbers are modelled as real numbers; Python tuples and stat dictionaries
(keys pts, reb, ast, to, stocks, threepm, ts%) become the `StatLine`
structure; the `ValueError` raised on an invalid timeframe tag becomes an
`Except String` result; Python `None` archetypes become `Option String`
(`falsyStr` captures Python truthiness of an optional string, which treats
both `None` and the empty string as falsy).
-/

set_option maxHeartbeats 1000000

noncomputable section

/-- Ordered 7-field stat record: (points, rebounds, assists, turnovers,
stocks, three-pointers made, true-shooting percentage).  Also used for the
per-stat dictionaries (alphas, standard deviations, z-scores, weights). -/
structure StatLine where
  pts : ℝ
  reb : ℝ
  ast : ℝ
  tov : ℝ
  stocks : ℝ
  threepm : ℝ
  ts_pct : ℝ

attribute [ext] StatLine

/-- Apply a function to every field (Python list comprehension over the tuple). -/
def StatLine.map (f : ℝ → ℝ) (s : StatLine) : StatLine :=
  ⟨f s.pts, f s.reb, f s.ast, f s.tov, f s.stocks, f s.threepm, f s.ts_pct⟩

/-- Combine two stat records field by field. -/
def StatLine.zipWith (f : ℝ → ℝ → ℝ) (s r : StatLine) : StatLine :=
  ⟨f s.pts r.pts, f s.reb r.reb, f s.ast r.ast, f s.tov r.tov,
   f s.stocks r.stocks, f s.threepm r.threepm, f s.ts_pct r.ts_pct⟩

/-- Python truthiness of an optional string: `None` and `""` are falsy. -/
def falsyStr : Option String → Bool
  | none => true
  | some s => s == ""

/-- The result dictionary returned by the simulation entry points. -/
structure PricingResult where
  projected_stats : StatLine
  standard_deviations : StatLine
  actual_averages : StatLine
  z_scores : StatLine
  pps : ℝ
  dis : ℝ
  raw_delta : ℝ
  dampened_delta : ℝ
  new_price : ℝ
  price_change_pct : ℝ
  old_price : ℝ
  timeframe : String
  num_games : ℤ

attribute [ext] PricingResult

namespace TimeframeAlgorithm

/-- 50/50 blend of season and recent averages (weekly and monthly branches). -/
def projection_blend (season_avg recent_avg : StatLine) : StatLine :=
  StatLine.zipWith (fun a b => 0.5 * a + 0.5 * b) season_avg recent_avg

/-- Archetype-specific monthly projection adjustments
(`calculate_projected_stats`, monthly branch). -/
def monthly_archetype_adjust (player_archetype : Option String) (p : StatLine) : StatLine :=
  if player_archetype = some "Superstars" then p.map (· * 1.0212)
  else if player_archetype = some "Elite Shooters" then p.map (· * 1.002)
  else if player_archetype = some "Elite Defenders" then p.map (· * 0.99685)
  else if player_archetype = some "Elite Playmakers" then p.map (· * 1.02)
  else if player_archetype = some "Rebounding Machines" then p.map (· * 0.999)
  else if player_archetype = some "Turnover Prone" then p.map (· * 0.9885)
  else if player_archetype = some "One Dimensional" then p.map (· * 1.008)
  else if player_archetype = some "Versatile" then p.map (· * 1.0325)
  else if player_archetype = some "Role Players" then p.map (· * 1.0035)
  else if player_archetype = some "High Volume Scorers" then p.map (· * 1.001)
  else if player_archetype = some "High Efficiency" then p.map (· * 1.0008)
  else p

/-- Archetype-specific weekly projection multiplier block applied after the
timeframe branch of `calculate_projected_stats` (every condition also tests
`timeframe == "weekly"`). -/
def weekly_archetype_adjust (player_archetype : Option String) (timeframe : String)
    (p : StatLine) : StatLine :=
  if player_archetype = some "Superstars" ∧ timeframe = "weekly" then p.map (· * 1.035)
  else if player_archetype = some "Elite Playmakers" ∧ timeframe = "weekly" then p.map (· * 1.035)
  else if player_archetype = some "Versatile" ∧ timeframe = "weekly" then p.map (· * 1.045)
  else if player_archetype = some "One Dimensional" ∧ timeframe = "weekly" then p.map (· * 1.0105)
  else if player_archetype = some "Role Players" ∧ timeframe = "weekly" then p.map (· * 1.01)
  else if player_archetype = some "Turnover Prone" ∧ timeframe = "weekly" then p.map (· * 0.98)
  else if player_archetype = some "Rebounding Machines" ∧ timeframe = "weekly" then p.map (· * 0.985)
  else if player_archetype = some "High Volume Scorers" ∧ timeframe = "weekly" then p.map (· * 0.995)
  else if player_archetype = some "Bench Warmers" ∧ timeframe = "weekly" then p.map (· * 1.003)
  else if player_archetype = some "Elite Shooters" ∧ timeframe = "weekly" then p.map (· * 0.9975)
  else p

/-- `calculate_projected_stats`: projected stats per game for the timeframe;
raises (returns an error) on an invalid timeframe tag.  The season branch
returns `season_avg` whether or not `use_2023_stats` is set (the caller
chooses which season's averages to pass). -/
def calculate_projected_stats (season_avg recent_avg : StatLine) (timeframe : String)
    (use_2023_stats : Bool) (player_archetype : Option String) : Except String StatLine :=
  if timeframe = "weekly" then
    Except.ok (weekly_archetype_adjust player_archetype timeframe
      (projection_blend season_avg recent_avg))
  else if timeframe = "monthly" then
    Except.ok (weekly_archetype_adjust player_archetype timeframe
      (monthly_archetype_adjust player_archetype (projection_blend season_avg recent_avg)))
  else if timeframe = "season" then
    Except.ok (weekly_archetype_adjust player_archetype timeframe
      (if use_2023_stats then season_avg else season_avg))
  else
    Except.error "Invalid timeframe. Use 'weekly', 'monthly', or 'season'"

/-- Default weekly alpha table. -/
def weekly_default_alphas : StatLine :=
  ⟨1.418, 0.945, 0.945, 0.958, 0.958, 0.958, 0.07⟩

/-- Default monthly alpha table. -/
def monthly_default_alphas : StatLine :=
  ⟨0.809, 0.539, 0.539, 0.547, 0.547, 0.547, 0.07⟩

/-- Season alpha table. -/
def season_alphas : StatLine :=
  ⟨0.794, 0.529, 0.529, 0.537, 0.537, 0.537, 0.07⟩

/-- `_get_weekly_alphas`: archetype-specific weekly alpha values.  The
"One Dimensional" branch finds the signature stat — the first of the six
non-ts% projected fields attaining their maximum (Python
`stats.index(max(stats))`) — and raises exactly that alpha by 8%. -/
def _get_weekly_alphas (player_archetype : Option String) (projected_stats : StatLine) :
    StatLine :=
  if falsyStr player_archetype then weekly_default_alphas
  else if player_archetype = some "Superstars" then
    ⟨1.6, 1.1, 1.1, 0.958, 0.958, 0.958, 0.07⟩
  else if player_archetype = some "Versatile" then
    ⟨1.702, 1.134, 1.134, 1.150, 1.150, 1.150, 0.084⟩
  else if player_archetype = some "Elite Playmakers" then
    ⟨1.418, 0.945, 1.2, 0.958, 0.958, 0.958, 0.07⟩
  else if player_archetype = some "High Volume Scorers" then
    ⟨1.3, 0.945, 0.945, 0.958, 0.958, 0.958, 0.07⟩
  else if player_archetype = some "Rebounding Machines" then
    ⟨1.418, 0.85, 0.945, 0.958, 0.958, 0.958, 0.07⟩
  else if player_archetype = some "Bench Warmers" then
    ⟨1.021, 0.680, 0.680, 0.689, 0.689, 0.689, 0.050⟩
  else if player_archetype = some "Turnover Prone" then
    ⟨1.418, 0.945, 0.945, 1.1, 0.958, 0.958, 0.07⟩
  else if player_archetype = some "One Dimensional" then
    let m := max projected_stats.pts (max projected_stats.reb (max projected_stats.ast
      (max projected_stats.tov (max projected_stats.stocks projected_stats.threepm))))
    if projected_stats.pts = m then
      { weekly_default_alphas with pts := weekly_default_alphas.pts * 1.08 }
    else if projected_stats.reb = m then
      { weekly_default_alphas with reb := weekly_default_alphas.reb * 1.08 }
    else if projected_stats.ast = m then
      { weekly_default_alphas with ast := weekly_default_alphas.ast * 1.08 }
    else if projected_stats.tov = m then
      { weekly_default_alphas with tov := weekly_default_alphas.tov * 1.08 }
    else if projected_stats.stocks = m then
      { weekly_default_alphas with stocks := weekly_default_alphas.stocks * 1.08 }
    else
      { weekly_default_alphas with threepm := weekly_default_alphas.threepm * 1.08 }
  else if player_archetype = some "Role Players" then
    ⟨1.489, 0.992, 0.992, 1.006, 1.006, 1.006, 0.074⟩
  else weekly_default_alphas

/-- `_get_monthly_alphas`: archetype-specific monthly alpha values.  Every
branch of the first conditional chain returns (the final `else` returns the
default table), so the duplicated weekly-style chain that follows it in the
source (lines 340-439) is unreachable and omitted here. -/
def _get_monthly_alphas (player_archetype : Option String) : StatLine :=
  if falsyStr player_archetype then monthly_default_alphas
  else if player_archetype = some "Superstars" then
    ⟨1.011, 0.674, 0.674, 0.684, 0.684, 0.684, 0.088⟩
  else if player_archetype = some "Elite Shooters" then
    ⟨0.833, 0.555, 0.555, 0.563, 0.563, 0.563, 0.072⟩
  else if player_archetype = some "Elite Playmakers" then
    ⟨0.971, 0.647, 0.647, 0.656, 0.656, 0.656, 0.084⟩
  else if player_archetype = some "Turnover Prone" then
    ⟨0.769, 0.512, 0.512, 0.520, 0.520, 0.520, 0.067⟩
  else if player_archetype = some "One Dimensional" then
    ⟨0.890, 0.593, 0.593, 0.602, 0.602, 0.602, 0.077⟩
  else if player_archetype = some "Versatile" then
    ⟨1.011, 0.674, 0.674, 0.684, 0.684, 0.684, 0.088⟩
  else if player_archetype = some "Role Players" then
    ⟨0.849, 0.566, 0.566, 0.574, 0.574, 0.574, 0.074⟩
  else monthly_default_alphas

/-- `calculate_standard_deviations`: per-stat sigma = alpha * sqrt(max(stat, 0.1));
the ts% sigma is the fixed alpha itself. -/
def calculate_standard_deviations (projected_stats : StatLine) (timeframe : String)
    (player_archetype : Option String) : StatLine :=
  let alphas :=
    if timeframe = "weekly" then _get_weekly_alphas player_archetype projected_stats
    else if timeframe = "monthly" then _get_monthly_alphas player_archetype
    else season_alphas
  ⟨alphas.pts * Real.sqrt (max projected_stats.pts 0.1),
   alphas.reb * Real.sqrt (max projected_stats.reb 0.1),
   alphas.ast * Real.sqrt (max projected_stats.ast 0.1),
   alphas.tov * Real.sqrt (max projected_stats.tov 0.1),
   alphas.stocks * Real.sqrt (max projected_stats.stocks 0.1),
   alphas.threepm * Real.sqrt (max projected_stats.threepm 0.1),
   alphas.ts_pct⟩

/-- `calculate_actual_averages`: per-game averages from totals. -/
def calculate_actual_averages (actual_totals : StatLine) (num_games : ℤ) : StatLine :=
  actual_totals.map (fun total => total / (num_games : ℝ))

/-- `calculate_z_scores`: (actual - projected) / sigma, inverted for turnovers. -/
def calculate_z_scores (actual_avg projected_stats std_devs : StatLine) : StatLine :=
  ⟨(actual_avg.pts - projected_stats.pts) / std_devs.pts,
   (actual_avg.reb - projected_stats.reb) / std_devs.reb,
   (actual_avg.ast - projected_stats.ast) / std_devs.ast,
   (projected_stats.tov - actual_avg.tov) / std_devs.tov,
   (actual_avg.stocks - projected_stats.stocks) / std_devs.stocks,
   (actual_avg.threepm - projected_stats.threepm) / std_devs.threepm,
   (actual_avg.ts_pct - projected_stats.ts_pct) / std_devs.ts_pct⟩

/-- Default PPS weights (defined inline in `calculate_pps`). -/
def default_weights : StatLine :=
  ⟨0.45, 0.15, 0.15, 0.05, 0.10, 0.05, 0.05⟩

/-- `_get_archetype_weights`: archetype-specific PPS weights. -/
def _get_archetype_weights (player_archetype : Option String) : StatLine :=
  if player_archetype = some "Superstars" then
    ⟨0.35, 0.125, 0.125, 0.075, 0.125, 0.10, 0.10⟩
  else if player_archetype = some "Elite Shooters" then
    ⟨0.45, 0.15, 0.15, 0.05, 0.10, 0.05, 0.05⟩
  else if player_archetype = some "Elite Defenders" then
    ⟨0.45, 0.15, 0.15, 0.05, 0.10, 0.05, 0.05⟩
  else if player_archetype = some "High Volume Scorers" then
    ⟨0.425, 0.125, 0.125, 0.05, 0.075, 0.10, 0.10⟩
  else if player_archetype = some "Elite Playmakers" then
    ⟨0.375, 0.15, 0.225, 0.05, 0.10, 0.05, 0.05⟩
  else if player_archetype = some "Rebounding Machines" then
    ⟨0.375, 0.15, 0.225, 0.05, 0.10, 0.05, 0.05⟩
  else if player_archetype = some "Bench Warmers" then
    ⟨0.20, 0.175, 0.175, 0.05, 0.15, 0.10, 0.15⟩
  else if player_archetype = some "High Efficiency" then
    ⟨0.45, 0.125, 0.15, 0.05, 0.10, 0.05, 0.075⟩
  else if player_archetype = some "Turnover Prone" then
    ⟨0.45, 0.15, 0.15, 0.025, 0.10, 0.05, 0.075⟩
  else if player_archetype = some "One Dimensional" then
    ⟨0.35, 0.175, 0.175, 0.05, 0.125, 0.03, 0.095⟩
  else if player_archetype = some "Versatile" then
    ⟨0.35, 0.125, 0.125, 0.075, 0.125, 0.10, 0.10⟩
  else if player_archetype = some "Role Players" then
    ⟨0.425, 0.175, 0.175, 0.05, 0.075, 0.05, 0.05⟩
  else
    ⟨0.45, 0.15, 0.15, 0.05, 0.10, 0.05, 0.05⟩

/-- The weight table `calculate_pps` actually uses: the inline default when
the archetype is falsy, else the `_get_archetype_weights` lookup. -/
def pps_weights (player_archetype : Option String) : StatLine :=
  if falsyStr player_archetype then default_weights
  else _get_archetype_weights player_archetype

/-- `calculate_pps`: weighted sum of the seven z-scores. -/
def calculate_pps (z_scores : StatLine) (player_archetype : Option String) : ℝ :=
  let weights := pps_weights player_archetype
  weights.pts * z_scores.pts + weights.reb * z_scores.reb + weights.ast * z_scores.ast +
    weights.tov * z_scores.tov + weights.stocks * z_scores.stocks +
    weights.threepm * z_scores.threepm + weights.ts_pct * z_scores.ts_pct

/-- `calculate_dis`: Demand Imbalance Score. -/
def calculate_dis (pps : ℝ) (_player_archetype : Option String) : ℝ :=
  let buy_adj := 15 * pps
  let sell_adj := -15 * pps
  let buys := 50 + buy_adj + 2
  let sells := 50 + sell_adj - 2
  (buys - sells) / (buys + sells)

/-- `calculate_raw_delta`. -/
def calculate_raw_delta (pps dis : ℝ) (_player_archetype : Option String) : ℝ :=
  0.8 * pps + 0.2 * dis

/-- `apply_dampening`: saturating gain curve (capped at 10 weekly/monthly,
50 otherwise) for `raw_delta >= 0`, asymmetric loss curve for `raw_delta < 0`. -/
def apply_dampening (raw_delta : ℝ) (timeframe : String)
    (player_archetype : Option String) : ℝ :=
  if 0 ≤ raw_delta then
    if timeframe = "weekly" ∨ timeframe = "monthly" then
      if player_archetype = some "Superstars" then
        min (raw_delta / Real.sqrt (max (1 - 0.5 * raw_delta ^ 2) 0.001)) 10
      else if player_archetype = some "One Dimensional" then
        min (raw_delta / Real.sqrt (max (1 - 0.5 * raw_delta ^ 2) 0.001)) 10
      else if player_archetype = some "Bench Warmers" then
        if timeframe = "weekly" then
          min (raw_delta / Real.sqrt (max (1 - 0.1 * raw_delta ^ 2) 0.001)) 10
        else
          min (raw_delta / Real.sqrt (max (1 - 0.05 * raw_delta ^ 2) 0.001)) 10
      else if player_archetype = some "Versatile" then
        if timeframe = "weekly" then
          min (raw_delta / Real.sqrt (max (1 - 0.8 * raw_delta ^ 2) 0.001)) 10
        else
          min (raw_delta / Real.sqrt (max (1 - 0.1 * raw_delta ^ 2) 0.001)) 10
      else if player_archetype = some "Rebounding Machines" then
        min (raw_delta / Real.sqrt (max (1 - 0.8 * raw_delta ^ 2) 0.001)) 10
      else
        min (raw_delta / Real.sqrt (max (1 - 0.5 * raw_delta ^ 2) 0.001)) 10
    else
      min (raw_delta / Real.sqrt (max (1 - 0.1 * raw_delta ^ 2) 0.001)) 50
  else
    -(|raw_delta| ^ 2 / (|raw_delta| ^ 2 + 0.18))

/-- `calculate_new_price`: (new price, percent change). -/
def calculate_new_price (old_price dampened_delta : ℝ) : ℝ × ℝ :=
  (old_price * (1 + dampened_delta), dampened_delta * 100)

/-- `simulate_timeframe`: the complete pipeline; propagates the invalid-timeframe
error from the first stage. -/
def simulate_timeframe (actual_totals : StatLine) (num_games : ℤ)
    (season_avg recent_avg : StatLine) (old_price : ℝ) (timeframe : String)
    (use_2023_stats : Bool) (player_archetype : Option String) :
    Except String PricingResult :=
  match calculate_projected_stats season_avg recent_avg timeframe use_2023_stats
      player_archetype with
  | Except.error e => Except.error e
  | Except.ok projected_stats =>
    let std_devs := calculate_standard_deviations projected_stats timeframe player_archetype
    let actual_avg := calculate_actual_averages actual_totals num_games
    let z_scores := calculate_z_scores actual_avg projected_stats std_devs
    let pps := calculate_pps z_scores player_archetype
    let dis := calculate_dis pps player_archetype
    let raw_delta := calculate_raw_delta pps dis player_archetype
    let dampened_delta := apply_dampening raw_delta timeframe player_archetype
    let price := calculate_new_price old_price dampened_delta
    Except.ok
      { projected_stats := projected_stats
        standard_deviations := std_devs
        actual_averages := actual_avg
        z_scores := z_scores
        pps := pps
        dis := dis
        raw_delta := raw_delta
        dampened_delta := dampened_delta
        new_price := price.1
        price_change_pct := price.2
        old_price := old_price
        timeframe := timeframe
        num_games := num_games }

end TimeframeAlgorithm

namespace MonthlyAlgorithm

/-- `calculate_projected_stats` (monthly_algorithm.py): 50/50 blend of season
and last-12-games averages, then archetype-specific monthly adjustments. -/
def calculate_projected_stats (season_avg recent_avg : StatLine)
    (player_archetype : Option String) : StatLine :=
  let projected := StatLine.zipWith (fun a b => 0.5 * a + 0.5 * b) season_avg recent_avg
  if player_archetype = some "Superstars" then projected.map (· * 1.0212)
  else if player_archetype = some "Elite Shooters" then projected.map (· * 1.002)
  else if player_archetype = some "Elite Defenders" then projected.map (· * 0.99685)
  else if player_archetype = some "Elite Playmakers" then projected.map (· * 1.02)
  else if player_archetype = some "Rebounding Machines" then projected.map (· * 0.999)
  else if player_archetype = some "Turnover Prone" then projected.map (· * 0.9885)
  else if player_archetype = some "One Dimensional" then projected.map (· * 1.008)
  else if player_archetype = some "Versatile" then projected.map (· * 1.0325)
  else if player_archetype = some "Role Players" then projected.map (· * 1.0035)
  else if player_archetype = some "High Volume Scorers" then projected.map (· * 1.001)
  else if player_archetype = some "High Efficiency" then projected.map (· * 1.0008)
  else projected

/-- Default monthly alpha table (monthly_algorithm.py). -/
def monthly_default_alphas : StatLine :=
  ⟨0.809, 0.539, 0.539, 0.547, 0.547, 0.547, 0.07⟩

/-- `_get_monthly_alphas` (monthly_algorithm.py): archetype-specific monthly
alpha values. -/
def _get_monthly_alphas (player_archetype : Option String) : StatLine :=
  if falsyStr player_archetype then monthly_default_alphas
  else if player_archetype = some "Superstars" then
    ⟨1.011, 0.674, 0.674, 0.684, 0.684, 0.684, 0.088⟩
  else if player_archetype = some "Elite Shooters" then
    ⟨0.833, 0.555, 0.555, 0.563, 0.563, 0.563, 0.072⟩
  else if player_archetype = some "Elite Playmakers" then
    ⟨0.971, 0.647, 0.647, 0.656, 0.656, 0.656, 0.084⟩
  else if player_archetype = some "Turnover Prone" then
    ⟨0.769, 0.512, 0.512, 0.520, 0.520, 0.520, 0.067⟩
  else if player_archetype = some "One Dimensional" then
    ⟨0.890, 0.593, 0.593, 0.602, 0.602, 0.602, 0.077⟩
  else if player_archetype = some "Versatile" then
    ⟨1.011, 0.674, 0.674, 0.684, 0.684, 0.684, 0.088⟩
  else if player_archetype = some "Role Players" then
    ⟨0.849, 0.566, 0.566, 0.574, 0.574, 0.574, 0.074⟩
  else monthly_default_alphas

/-- `calculate_standard_deviations` (monthly_algorithm.py). -/
def calculate_standard_deviations (projected_stats : StatLine)
    (player_archetype : Option String) : StatLine :=
  let alphas := _get_monthly_alphas player_archetype
  ⟨alphas.pts * Real.sqrt (max projected_stats.pts 0.1),
   alphas.reb * Real.sqrt (max projected_stats.reb 0.1),
   alphas.ast * Real.sqrt (max projected_stats.ast 0.1),
   alphas.tov * Real.sqrt (max projected_stats.tov 0.1),
   alphas.stocks * Real.sqrt (max projected_stats.stocks 0.1),
   alphas.threepm * Real.sqrt (max projected_stats.threepm 0.1),
   alphas.ts_pct⟩

/-- `calculate_actual_averages` (monthly_algorithm.py). -/
def calculate_actual_averages (actual_totals : StatLine) (num_games : ℤ) : StatLine :=
  actual_totals.map (fun total => total / (num_games : ℝ))

/-- `calculate_z_scores` (monthly_algorithm.py). -/
def calculate_z_scores (actual_avg projected_stats std_devs : StatLine) : StatLine :=
  ⟨(actual_avg.pts - projected_stats.pts) / std_devs.pts,
   (actual_avg.reb - projected_stats.reb) / std_devs.reb,
   (actual_avg.ast - projected_stats.ast) / std_devs.ast,
   (projected_stats.tov - actual_avg.tov) / std_devs.tov,
   (actual_avg.stocks - projected_stats.stocks) / std_devs.stocks,
   (actual_avg.threepm - projected_stats.threepm) / std_devs.threepm,
   (actual_avg.ts_pct - projected_stats.ts_pct) / std_devs.ts_pct⟩

/-- `_get_archetype_weights` (monthly_algorithm.py). -/
def _get_archetype_weights (player_archetype : Option String) : StatLine :=
  if player_archetype = some "Superstars" then
    ⟨0.35, 0.125, 0.125, 0.075, 0.125, 0.10, 0.10⟩
  else if player_archetype = some "Elite Shooters" then
    ⟨0.45, 0.15, 0.15, 0.05, 0.10, 0.05, 0.05⟩
  else if player_archetype = some "Elite Defenders" then
    ⟨0.45, 0.15, 0.15, 0.05, 0.10, 0.05, 0.05⟩
  else if player_archetype = some "High Volume Scorers" then
    ⟨0.425, 0.125, 0.125, 0.05, 0.075, 0.10, 0.10⟩
  else if player_archetype = some "Elite Playmakers" then
    ⟨0.375, 0.15, 0.225, 0.05, 0.10, 0.05, 0.05⟩
  else if player_archetype = some "Rebounding Machines" then
    ⟨0.375, 0.15, 0.225, 0.05, 0.10, 0.05, 0.05⟩
  else if player_archetype = some "Bench Warmers" then
    ⟨0.20, 0.175, 0.175, 0.05, 0.15, 0.10, 0.15⟩
  else if player_archetype = some "High Efficiency" then
    ⟨0.45, 0.125, 0.15, 0.05, 0.10, 0.05, 0.075⟩
  else if player_archetype = some "Turnover Prone" then
    ⟨0.45, 0.15, 0.15, 0.025, 0.10, 0.05, 0.075⟩
  else if player_archetype = some "One Dimensional" then
    ⟨0.35, 0.175, 0.175, 0.05, 0.125, 0.03, 0.095⟩
  else if player_archetype = some "Versatile" then
    ⟨0.35, 0.125, 0.125, 0.075, 0.125, 0.10, 0.10⟩
  else if player_archetype = some "Role Players" then
    ⟨0.425, 0.175, 0.175, 0.05, 0.075, 0.05, 0.05⟩
  else
    ⟨0.45, 0.15, 0.15, 0.05, 0.10, 0.05, 0.05⟩

/-- `calculate_pps` (monthly_algorithm.py): always goes through the
archetype-weight lookup (its final `else` is the default table). -/
def calculate_pps (z_scores : StatLine) (player_archetype : Option String) : ℝ :=
  let weights := _get_archetype_weights player_archetype
  weights.pts * z_scores.pts + weights.reb * z_scores.reb + weights.ast * z_scores.ast +
    weights.tov * z_scores.tov + weights.stocks * z_scores.stocks +
    weights.threepm * z_scores.threepm + weights.ts_pct * z_scores.ts_pct

/-- `calculate_dis` (monthly_algorithm.py). -/
def calculate_dis (pps : ℝ) (_player_archetype : Option String) : ℝ :=
  let buy_adj := 15 * pps
  let sell_adj := -15 * pps
  let buys := 50 + buy_adj + 2
  let sells := 50 + sell_adj - 2
  (buys - sells) / (buys + sells)

/-- `calculate_raw_delta` (monthly_algorithm.py). -/
def calculate_raw_delta (pps dis : ℝ) (_player_archetype : Option String) : ℝ :=
  0.8 * pps + 0.2 * dis

/-- `apply_dampening` (monthly_algorithm.py): monthly dampening rules. -/
def apply_dampening (raw_delta : ℝ) (player_archetype : Option String) : ℝ :=
  if 0 ≤ raw_delta then
    if player_archetype = some "Superstars" then
      min (raw_delta / Real.sqrt (max (1 - 0.5 * raw_delta ^ 2) 0.001)) 10
    else if player_archetype = some "One Dimensional" then
      min (raw_delta / Real.sqrt (max (1 - 0.5 * raw_delta ^ 2) 0.001)) 10
    else if player_archetype = some "Bench Warmers" then
      min (raw_delta / Real.sqrt (max (1 - 0.05 * raw_delta ^ 2) 0.001)) 10
    else if player_archetype = some "Versatile" then
      min (raw_delta / Real.sqrt (max (1 - 0.1 * raw_delta ^ 2) 0.001)) 10
    else if player_archetype = some "Rebounding Machines" then
      min (raw_delta / Real.sqrt (max (1 - 0.8 * raw_delta ^ 2) 0.001)) 10
    else
      min (raw_delta / Real.sqrt (max (1 - 0.5 * raw_delta ^ 2) 0.001)) 10
  else
    -(|raw_delta| ^ 2 / (|raw_delta| ^ 2 + 0.18))

/-- `calculate_new_price` (monthly_algorithm.py). -/
def calculate_new_price (old_price dampened_delta : ℝ) : ℝ × ℝ :=
  (old_price * (1 + dampened_delta), dampened_delta * 100)

/-- `simulate_monthly`: the complete monthly pipeline. -/
def simulate_monthly (actual_totals : StatLine) (num_games : ℤ)
    (season_avg recent_avg : StatLine) (old_price : ℝ)
    (player_archetype : Option String) : PricingResult :=
  let projected_stats := calculate_projected_stats season_avg recent_avg player_archetype
  let std_devs := calculate_standard_deviations projected_stats player_archetype
  let actual_avg := calculate_actual_averages actual_totals num_games
  let z_scores := calculate_z_scores actual_avg projected_stats std_devs
  let pps := calculate_pps z_scores player_archetype
  let dis := calculate_dis pps player_archetype
  let raw_delta := calculate_raw_delta pps dis player_archetype
  let dampened_delta := apply_dampening raw_delta player_archetype
  let price := calculate_new_price old_price dampened_delta
  { projected_stats := projected_stats
    standard_deviations := std_devs
    actual_averages := actual_avg
    z_scores := z_scores
    pps := pps
    dis := dis
    raw_delta := raw_delta
    dampened_delta := dampened_delta
    new_price := price.1
    price_change_pct := price.2
    old_price := old_price
    timeframe := "monthly"
    num_games := num_games }

end MonthlyAlgorithm

/-- Signature-stat selection as the spec describes it for "One Dimensional"
dispersion: pick the first of the six non-ts% fields of the projected vector
attaining their maximum and multiply exactly that field's coefficient of the
base table by 1.08, leaving every other coefficient unchanged. -/
def spec_signature_bump (base p : StatLine) : StatLine :=
  let m := max p.pts (max p.reb (max p.ast (max p.tov (max p.stocks p.threepm))))
  if p.pts = m then { base with pts := base.pts * 1.08 }
  else if p.reb = m then { base with reb := base.reb * 1.08 }
  else if p.ast = m then { base with ast := base.ast * 1.08 }
  else if p.tov = m then { base with tov := base.tov * 1.08 }
  else if p.stocks = m then { base with stocks := base.stocks * 1.08 }
  else { base with threepm := base.threepm * 1.08 }

/-- Sum of the seven fields of a stat record. -/
def StatLine.sum (w : StatLine) : ℝ :=
  w.pts + w.reb + w.ast + w.tov + w.stocks + w.threepm + w.ts_pct

/-- Sum of the seven weights `calculate_pps` uses for a given archetype. -/
def pps_weight_sum (player_archetype : Option String) : ℝ :=
  (TimeframeAlgorithm.pps_weights player_archetype).sum

/-- The gain-branch cap for a timeframe tag: 10 for weekly/monthly, 50 for
the season branch of `apply_dampening`. -/
def cap_for (timeframe : String) : ℝ := if timeframe = "season" then 50 else 10

section Lemmas

open TimeframeAlgorithm

/-- The gain-branch saturation expression never exceeds its cap. -/
lemma damp_min_le (k cap r : ℝ) :
    min (r / Real.sqrt (max (1 - k * r ^ 2) 0.001)) cap ≤ cap :=
  min_le_right _ _

/-- The radicand guard is bounded by 1 for nonnegative saturation
coefficients, so the gain-branch curve dominates the identity and hits the
cap as soon as `cap ≤ r`. -/
lemma damp_attains (k cap r : ℝ) (hk : 0 ≤ k) (hcap : 0 < cap) (hr : cap ≤ r) :
    min (r / Real.sqrt (max (1 - k * r ^ 2) 0.001)) cap = cap := by
  have hx : max (1 - k * r ^ 2) 0.001 ≤ 1 := by
    apply max_le
    · nlinarith [sq_nonneg r]
    · norm_num
  have hxpos : (0 : ℝ) < max (1 - k * r ^ 2) 0.001 := lt_max_of_lt_right (by norm_num)
  have hspos : 0 < Real.sqrt (max (1 - k * r ^ 2) 0.001) := Real.sqrt_pos.mpr hxpos
  have hs1 : Real.sqrt (max (1 - k * r ^ 2) 0.001) ≤ 1 := by
    calc Real.sqrt (max (1 - k * r ^ 2) 0.001) ≤ Real.sqrt 1 := Real.sqrt_le_sqrt hx
      _ = 1 := Real.sqrt_one
  apply min_eq_right
  rw [le_div_iff₀ hspos]
  calc cap * Real.sqrt (max (1 - k * r ^ 2) 0.001) ≤ cap * 1 := by nlinarith
    _ = cap := mul_one cap
    _ ≤ r := hr

/-- The gain-branch saturation expression is nonnegative for `0 ≤ r`. -/
lemma damp_nonneg (k cap r : ℝ) (hr : 0 ≤ r) (hcap : 0 ≤ cap) :
    0 ≤ min (r / Real.sqrt (max (1 - k * r ^ 2) 0.001)) cap :=
  le_min (div_nonneg hr (Real.sqrt_nonneg _)) hcap

/-- Closed form of the demand imbalance score: the pool sizes always add to
100, so the ratio collapses to an affine function of PPS. -/
lemma calculate_dis_eq (pps : ℝ) (a : Option String) :
    calculate_dis pps a = 0.3 * pps + 0.04 := by
  unfold TimeframeAlgorithm.calculate_dis
  ring_nf

/-- The loss branch of `apply_dampening` in closed form with its bounds. -/
lemma loss_branch_bounds (rd : ℝ) (h : rd < 0) :
    -1 < -(|rd| ^ 2 / (|rd| ^ 2 + 0.18)) ∧ -(|rd| ^ 2 / (|rd| ^ 2 + 0.18)) < 0 := by
  have hx : 0 < |rd| ^ 2 := pow_pos (abs_pos.mpr (ne_of_lt h)) 2
  constructor
  · have h1 : |rd| ^ 2 / (|rd| ^ 2 + 0.18) < 1 := by
      rw [div_lt_one (by linarith)]
      linarith
    linarith
  · have h2 : 0 < |rd| ^ 2 / (|rd| ^ 2 + 0.18) := div_pos hx (by linarith)
    linarith

end Lemmas

section Claims

open TimeframeAlgorithm

/-- Claim C2: for every raw_delta < 0, regardless of timeframe and archetype,
`apply_dampening` returns -(|raw_delta|^2 / (|raw_delta|^2 + 0.18)), a value
strictly between -1 and 0. -/
theorem claim_C2_loss_branch (raw_delta : ℝ) (timeframe : String)
    (player_archetype : Option String) (h : raw_delta < 0) :
    apply_dampening raw_delta timeframe player_archetype =
      -(|raw_delta| ^ 2 / (|raw_delta| ^ 2 + 0.18)) ∧
    -1 < apply_dampening raw_delta timeframe player_archetype ∧
    apply_dampening raw_delta timeframe player_archetype < 0 := by
  have heq : apply_dampening raw_delta timeframe player_archetype =
      -(|raw_delta| ^ 2 / (|raw_delta| ^ 2 + 0.18)) := by
    unfold TimeframeAlgorithm.apply_dampening
    rw [if_neg (not_le.mpr h)]
  rw [heq]
  exact ⟨rfl, (loss_branch_bounds raw_delta h).1, (loss_branch_bounds raw_delta h).2⟩

/-- Witness for C2 at raw_delta = -1, weekly, no archetype. -/
theorem claim_C2_loss_branch_witness :
    (-1 : ℝ) < 0 ∧
    (apply_dampening (-1) "weekly" none = -(|(-1 : ℝ)| ^ 2 / (|(-1 : ℝ)| ^ 2 + 0.18)) ∧
     -1 < apply_dampening (-1) "weekly" none ∧ apply_dampening (-1) "weekly" none < 0) :=
  ⟨by norm_num, claim_C2_loss_branch (-1) "weekly" none (by norm_num)⟩

/-- Counterexample to C4 as stated: there is no fixed bound on |DIS|. -/
theorem claim_C4_counterexample :
    ¬ ∃ B : ℝ, ∀ pps : ℝ, |calculate_dis pps none| ≤ B := by
  rintro ⟨B, hB⟩
  have h1 := hB (10 * (|B| + 1))
  rw [calculate_dis_eq] at h1
  have h2 : (0 : ℝ) ≤ 3 * |B| + 3.04 := by positivity
  have h3 : |0.3 * (10 * (|B| + 1)) + 0.04| = 3 * |B| + 3.04 := by
    rw [abs_of_nonneg (by linarith)]
    ring
  rw [h3] at h1
  have := le_abs_self B
  linarith [abs_nonneg B]

/-- Claim C4 amended: DIS is the stated buy/sell ratio, but the pools always
sum to 100, so it collapses to the strictly increasing affine map
0.3·PPS + 0.04 — monotonic, but exactly linear and unbounded. -/
theorem claim_C4_amended :
    (∀ (pps : ℝ) (a : Option String),
      calculate_dis pps a =
        ((50 + 15 * pps + 2) - (50 + -15 * pps - 2)) / ((50 + 15 * pps + 2) + (50 + -15 * pps - 2)) ∧
      calculate_dis pps a = 0.3 * pps + 0.04) ∧
    (∀ a : Option String, StrictMono (fun pps => calculate_dis pps a)) := by
  constructor
  · intro pps a
    constructor
    · rfl
    · exact calculate_dis_eq pps a
  · intro a x y hxy
    simp only [calculate_dis_eq]
    linarith

/-- Counterexample to C5 as stated: DIS at PPS = 0 is +0.04, not negative. -/
theorem claim_C5_counterexample :
    calculate_dis 0 none = 0.04 ∧ ¬ calculate_dis 0 none < 0 := by
  constructor
  · rw [calculate_dis_eq]; norm_num
  · rw [calculate_dis_eq]; norm_num

/-- Claim C5 amended: at PPS = 0 the additive plus/minus-2 asymmetry produces
a small constant positive offset favoring buys: DIS(0) = +0.04 > 0, tilting
the raw delta toward a price increase. -/
theorem claim_C5_amended (a : Option String) :
    calculate_dis 0 a = 0.04 ∧ 0 < calculate_dis 0 a ∧
    0 < calculate_raw_delta 0 (calculate_dis 0 a) a := by
  refine ⟨by rw [calculate_dis_eq]; norm_num, by rw [calculate_dis_eq]; norm_num, ?_⟩
  rw [calculate_dis_eq]
  unfold TimeframeAlgorithm.calculate_raw_delta
  norm_num

/-- Claim C7: for every archetype tag (the twelve named ones, the falsy
default, and any unrecognized string), the seven weights used by
`calculate_pps` sum to exactly 1, hence to 1.0 within 1e-9. -/
theorem claim_C7_weight_sums (player_archetype : Option String) :
    pps_weight_sum player_archetype = 1 ∧
    |pps_weight_sum player_archetype - 1| ≤ 1e-9 := by
  have h : pps_weight_sum player_archetype = 1 := by
    unfold pps_weight_sum TimeframeAlgorithm.pps_weights
      TimeframeAlgorithm._get_archetype_weights TimeframeAlgorithm.default_weights
    simp only [apply_ite StatLine.sum]
    norm_num [StatLine.sum, ite_self]
  exact ⟨h, by rw [h]; norm_num⟩

end Claims

section ClaimsB

open TimeframeAlgorithm

/-- Claim C1: on the gain branch, for every valid timeframe and every
archetype, the radicand guard stays positive for any saturation coefficient,
the dampened value never exceeds the timeframe's cap (10 weekly/monthly, 50
season), and the cap is attained for every sufficiently large raw delta
(any raw delta at or above the cap). -/
theorem claim_C1_gain_cap (raw_delta : ℝ) (timeframe : String)
    (player_archetype : Option String) (h0 : 0 ≤ raw_delta)
    (htf : timeframe = "weekly" ∨ timeframe = "monthly" ∨ timeframe = "season") :
    (∀ k : ℝ, 0 < max (1 - k * raw_delta ^ 2) 0.001) ∧
    apply_dampening raw_delta timeframe player_archetype ≤ cap_for timeframe ∧
    (∀ r : ℝ, cap_for timeframe ≤ r →
      apply_dampening r timeframe player_archetype = cap_for timeframe) := by
  refine ⟨fun _ => lt_max_of_lt_right (by norm_num), ?_, ?_⟩
  · rcases htf with h | h | h <;> subst h
    · rw [show cap_for "weekly" = 10 by simp [cap_for]]
      simp only [TimeframeAlgorithm.apply_dampening, if_pos h0]
      simp only [String.reduceEq, true_or, or_true, false_or, or_false, if_true, if_false,
        ite_true, ite_false]
      split_ifs <;> exact min_le_right _ _
    · rw [show cap_for "monthly" = 10 by simp [cap_for]]
      simp only [TimeframeAlgorithm.apply_dampening, if_pos h0]
      simp only [String.reduceEq, true_or, or_true, false_or, or_false, if_true, if_false,
        ite_true, ite_false]
      split_ifs <;> exact min_le_right _ _
    · rw [show cap_for "season" = 50 by simp [cap_for]]
      simp only [TimeframeAlgorithm.apply_dampening, if_pos h0]
      simp only [String.reduceEq, true_or, or_true, false_or, or_false, if_true, if_false,
        ite_true, ite_false]
      exact min_le_right _ _
  · intro r hr
    rcases htf with h | h | h <;> subst h
    · rw [show cap_for "weekly" = 10 by simp [cap_for]] at hr ⊢
      have hr0 : (0 : ℝ) ≤ r := by linarith
      simp only [TimeframeAlgorithm.apply_dampening, if_pos hr0]
      simp only [String.reduceEq, true_or, or_true, false_or, or_false, if_true, if_false,
        ite_true, ite_false]
      split_ifs <;> (apply damp_attains <;> first | exact hr | norm_num)
    · rw [show cap_for "monthly" = 10 by simp [cap_for]] at hr ⊢
      have hr0 : (0 : ℝ) ≤ r := by linarith
      simp only [TimeframeAlgorithm.apply_dampening, if_pos hr0]
      simp only [String.reduceEq, true_or, or_true, false_or, or_false, if_true, if_false,
        ite_true, ite_false]
      split_ifs <;> (apply damp_attains <;> first | exact hr | norm_num)
    · rw [show cap_for "season" = 50 by simp [cap_for]] at hr ⊢
      have hr0 : (0 : ℝ) ≤ r := by linarith
      simp only [TimeframeAlgorithm.apply_dampening, if_pos hr0]
      simp only [String.reduceEq, true_or, or_true, false_or, or_false, if_true, if_false,
        ite_true, ite_false]
      apply damp_attains <;> first | exact hr | norm_num

/-- Witness for C1 at raw_delta = 0, weekly, no archetype. -/
theorem claim_C1_gain_cap_witness :
    (0 : ℝ) ≤ 0 ∧
    (("weekly" : String) = "weekly" ∨ ("weekly" : String) = "monthly" ∨
      ("weekly" : String) = "season") ∧
    ((∀ k : ℝ, 0 < max (1 - k * (0 : ℝ) ^ 2) 0.001) ∧
     apply_dampening 0 "weekly" none ≤ cap_for "weekly" ∧
     (∀ r : ℝ, cap_for "weekly" ≤ r → apply_dampening r "weekly" none = cap_for "weekly")) :=
  ⟨le_refl 0, Or.inl rfl, claim_C1_gain_cap 0 "weekly" none (le_refl 0) (Or.inl rfl)⟩

end ClaimsB

section ClaimsC

open TimeframeAlgorithm

/-- Counterexample to C3 as stated: at monthly granularity the "One
Dimensional" dispersion coefficients are NOT the default table with only the
largest projected stat's coefficient raised by 8%.  For the projected vector
(10, 5, 4, 3, 2, 1, 0.5) the signature stat is points, so the claim predicts
the rebound coefficient stays at the monthly default 0.539; the code returns
the fixed table with reb = 0.593. -/
theorem claim_C3_counterexample :
    TimeframeAlgorithm._get_monthly_alphas (some "One Dimensional") ≠
      spec_signature_bump TimeframeAlgorithm.monthly_default_alphas
        ⟨10, 5, 4, 3, 2, 1, 0.5⟩ := by
  intro h
  have hreb := congrArg StatLine.reb h
  simp [TimeframeAlgorithm._get_monthly_alphas, spec_signature_bump,
    TimeframeAlgorithm.monthly_default_alphas, falsyStr] at hreb
  norm_num [max_def] at hreb

/-- Claim C3 amended: only the weekly dispersion stage performs the runtime
signature-stat selection (first of the six non-ts% projected fields attaining
the maximum gets its default coefficient multiplied by 1.08, all others left
at default); the monthly stage ignores the projected stats entirely and
returns a fixed "One Dimensional" table with every coefficient about 10%
above the monthly default. -/
theorem claim_C3_amended :
    (∀ p : StatLine,
      TimeframeAlgorithm._get_weekly_alphas (some "One Dimensional") p =
        spec_signature_bump TimeframeAlgorithm.weekly_default_alphas p) ∧
    TimeframeAlgorithm._get_monthly_alphas (some "One Dimensional") =
      ⟨0.890, 0.593, 0.593, 0.602, 0.602, 0.602, 0.077⟩ := by
  constructor
  · intro p
    simp [TimeframeAlgorithm._get_weekly_alphas, spec_signature_bump, falsyStr]
  · simp [TimeframeAlgorithm._get_monthly_alphas, falsyStr]

end ClaimsC

section ClaimsD

open TimeframeAlgorithm

/-- Claim C6: the dampened delta is always strictly above -1 — on the gain
branch it is nonnegative, on the loss branch it lies in (-1, 0) — so for any
positive old price the new price is strictly positive, for every timeframe
string and archetype. -/
theorem claim_C6_price_positive (old_price raw_delta : ℝ) (timeframe : String)
    (player_archetype : Option String) (hop : 0 < old_price) :
    -1 < apply_dampening raw_delta timeframe player_archetype ∧
    0 < (calculate_new_price old_price
          (apply_dampening raw_delta timeframe player_archetype)).1 := by
  have hdd : -1 < apply_dampening raw_delta timeframe player_archetype := by
    rcases le_or_lt 0 raw_delta with h0 | h0
    · have hnn : 0 ≤ apply_dampening raw_delta timeframe player_archetype := by
        unfold TimeframeAlgorithm.apply_dampening
        rw [if_pos h0]
        split_ifs <;> exact damp_nonneg _ _ _ h0 (by norm_num)
      linarith
    · have heq : apply_dampening raw_delta timeframe player_archetype =
          -(|raw_delta| ^ 2 / (|raw_delta| ^ 2 + 0.18)) := by
        unfold TimeframeAlgorithm.apply_dampening
        rw [if_neg (not_le.mpr h0)]
      rw [heq]
      exact (loss_branch_bounds raw_delta h0).1
  refine ⟨hdd, ?_⟩
  unfold TimeframeAlgorithm.calculate_new_price
  have h1 : 0 < 1 + apply_dampening raw_delta timeframe player_archetype := by linarith
  exact mul_pos hop h1

/-- Witness for C6 at old_price = 35, raw_delta = -2, weekly, no archetype. -/
theorem claim_C6_price_positive_witness :
    (0 : ℝ) < 35 ∧
    (-1 < apply_dampening (-2) "weekly" none ∧
     0 < (calculate_new_price 35 (apply_dampening (-2) "weekly" none)).1) :=
  ⟨by norm_num, claim_C6_price_positive 35 (-2) "weekly" none (by norm_num)⟩

/-- Claim C9: for any timeframe tag outside weekly/monthly/season, the first
pipeline stage `calculate_projected_stats` returns the descriptive
invalid-timeframe error, and `simulate_timeframe` surfaces exactly that error
(it fails before any later stage). -/
theorem claim_C9_invalid_timeframe (actual_totals : StatLine) (num_games : ℤ)
    (season_avg recent_avg : StatLine) (old_price : ℝ) (timeframe : String)
    (use_2023_stats : Bool) (player_archetype : Option String)
    (h : timeframe ≠ "weekly" ∧ timeframe ≠ "monthly" ∧ timeframe ≠ "season") :
    calculate_projected_stats season_avg recent_avg timeframe use_2023_stats
        player_archetype =
      Except.error "Invalid timeframe. Use 'weekly', 'monthly', or 'season'" ∧
    simulate_timeframe actual_totals num_games season_avg recent_avg old_price
        timeframe use_2023_stats player_archetype =
      Except.error "Invalid timeframe. Use 'weekly', 'monthly', or 'season'" := by
  have hp : calculate_projected_stats season_avg recent_avg timeframe use_2023_stats
      player_archetype =
      Except.error "Invalid timeframe. Use 'weekly', 'monthly', or 'season'" := by
    unfold TimeframeAlgorithm.calculate_projected_stats
    rw [if_neg h.1, if_neg h.2.1, if_neg h.2.2]
  refine ⟨hp, ?_⟩
  unfold TimeframeAlgorithm.simulate_timeframe
  rw [hp]

/-- Witness for C9 at the timeframe tag "daily". -/
theorem claim_C9_invalid_timeframe_witness :
    (("daily" : String) ≠ "weekly" ∧ ("daily" : String) ≠ "monthly" ∧
      ("daily" : String) ≠ "season") ∧
    (calculate_projected_stats ⟨20, 5, 5, 2, 1.5, 2, 0.55⟩ ⟨22, 6, 5, 2, 1.5, 2, 0.58⟩
        "daily" false none =
      Except.error "Invalid timeframe. Use 'weekly', 'monthly', or 'season'" ∧
    simulate_timeframe ⟨25, 6, 6, 1, 2, 3, 0.60⟩ 1 ⟨20, 5, 5, 2, 1.5, 2, 0.55⟩
        ⟨22, 6, 5, 2, 1.5, 2, 0.58⟩ 35 "daily" false none =
      Except.error "Invalid timeframe. Use 'weekly', 'monthly', or 'season'") :=
  ⟨by refine ⟨?_, ?_, ?_⟩ <;> decide,
   claim_C9_invalid_timeframe ⟨25, 6, 6, 1, 2, 3, 0.60⟩ 1 ⟨20, 5, 5, 2, 1.5, 2, 0.55⟩
     ⟨22, 6, 5, 2, 1.5, 2, 0.58⟩ 35 "daily" false none (by refine ⟨?_, ?_, ?_⟩ <;> decide)⟩

end ClaimsD

/-- All seven fields of a stat record are strictly positive. -/
def statAllPos (w : StatLine) : Prop :=
  0 < w.pts ∧ 0 < w.reb ∧ 0 < w.ast ∧ 0 < w.tov ∧ 0 < w.stocks ∧ 0 < w.threepm ∧
    0 < w.ts_pct

section ClaimsE

open TimeframeAlgorithm

/-- Every weight table `calculate_pps` can select is strictly positive in all
seven components. -/
lemma pps_weights_pos (player_archetype : Option String) :
    statAllPos (pps_weights player_archetype) := by
  unfold TimeframeAlgorithm.pps_weights TimeframeAlgorithm._get_archetype_weights
    TimeframeAlgorithm.default_weights
  simp only [apply_ite statAllPos]
  norm_num [statAllPos, ite_self]

/-- Claim C8: with the dispersions held fixed (and positive, as the
dispersion model guarantees), increasing any favorable actual stat by δ > 0
strictly increases PPS, and increasing actual turnovers strictly decreases
PPS, for every archetype. -/
theorem claim_C8_pps_monotonicity (player_archetype : Option String)
    (p s x : StatLine) (δ : ℝ) (hδ : 0 < δ) (hs : statAllPos s) :
    calculate_pps (calculate_z_scores { x with pts := x.pts + δ } p s) player_archetype >
      calculate_pps (calculate_z_scores x p s) player_archetype ∧
    calculate_pps (calculate_z_scores { x with reb := x.reb + δ } p s) player_archetype >
      calculate_pps (calculate_z_scores x p s) player_archetype ∧
    calculate_pps (calculate_z_scores { x with ast := x.ast + δ } p s) player_archetype >
      calculate_pps (calculate_z_scores x p s) player_archetype ∧
    calculate_pps (calculate_z_scores { x with stocks := x.stocks + δ } p s) player_archetype >
      calculate_pps (calculate_z_scores x p s) player_archetype ∧
    calculate_pps (calculate_z_scores { x with threepm := x.threepm + δ } p s) player_archetype >
      calculate_pps (calculate_z_scores x p s) player_archetype ∧
    calculate_pps (calculate_z_scores { x with ts_pct := x.ts_pct + δ } p s) player_archetype >
      calculate_pps (calculate_z_scores x p s) player_archetype ∧
    calculate_pps (calculate_z_scores { x with tov := x.tov + δ } p s) player_archetype <
      calculate_pps (calculate_z_scores x p s) player_archetype := by
  obtain ⟨w1, w2, w3, w4, w5, w6, w7⟩ := pps_weights_pos player_archetype
  obtain ⟨s1, s2, s3, s4, s5, s6, s7⟩ := hs
  refine ⟨?_, ?_, ?_, ?_, ?_, ?_, ?_⟩
  · have key : calculate_pps (calculate_z_scores { x with pts := x.pts + δ } p s)
        player_archetype - calculate_pps (calculate_z_scores x p s) player_archetype =
        (pps_weights player_archetype).pts * δ / s.pts := by
      simp only [TimeframeAlgorithm.calculate_pps, TimeframeAlgorithm.calculate_z_scores]
      ring
    have hpos : 0 < (pps_weights player_archetype).pts * δ / s.pts :=
      div_pos (mul_pos w1 hδ) s1
    linarith
  · have key : calculate_pps (calculate_z_scores { x with reb := x.reb + δ } p s)
        player_archetype - calculate_pps (calculate_z_scores x p s) player_archetype =
        (pps_weights player_archetype).reb * δ / s.reb := by
      simp only [TimeframeAlgorithm.calculate_pps, TimeframeAlgorithm.calculate_z_scores]
      ring
    have hpos : 0 < (pps_weights player_archetype).reb * δ / s.reb :=
      div_pos (mul_pos w2 hδ) s2
    linarith
  · have key : calculate_pps (calculate_z_scores { x with ast := x.ast + δ } p s)
        player_archetype - calculate_pps (calculate_z_scores x p s) player_archetype =
        (pps_weights player_archetype).ast * δ / s.ast := by
      simp only [TimeframeAlgorithm.calculate_pps, TimeframeAlgorithm.calculate_z_scores]
      ring
    have hpos : 0 < (pps_weights player_archetype).ast * δ / s.ast :=
      div_pos (mul_pos w3 hδ) s3
    linarith
  · have key : calculate_pps (calculate_z_scores { x with stocks := x.stocks + δ } p s)
        player_archetype - calculate_pps (calculate_z_scores x p s) player_archetype =
        (pps_weights player_archetype).stocks * δ / s.stocks := by
      simp only [TimeframeAlgorithm.calculate_pps, TimeframeAlgorithm.calculate_z_scores]
      ring
    have hpos : 0 < (pps_weights player_archetype).stocks * δ / s.stocks :=
      div_pos (mul_pos w5 hδ) s5
    linarith
  · have key : calculate_pps (calculate_z_scores { x with threepm := x.threepm + δ } p s)
        player_archetype - calculate_pps (calculate_z_scores x p s) player_archetype =
        (pps_weights player_archetype).threepm * δ / s.threepm := by
      simp only [TimeframeAlgorithm.calculate_pps, TimeframeAlgorithm.calculate_z_scores]
      ring
    have hpos : 0 < (pps_weights player_archetype).threepm * δ / s.threepm :=
      div_pos (mul_pos w6 hδ) s6
    linarith
  · have key : calculate_pps (calculate_z_scores { x with ts_pct := x.ts_pct + δ } p s)
        player_archetype - calculate_pps (calculate_z_scores x p s) player_archetype =
        (pps_weights player_archetype).ts_pct * δ / s.ts_pct := by
      simp only [TimeframeAlgorithm.calculate_pps, TimeframeAlgorithm.calculate_z_scores]
      ring
    have hpos : 0 < (pps_weights player_archetype).ts_pct * δ / s.ts_pct :=
      div_pos (mul_pos w7 hδ) s7
    linarith
  · have key : calculate_pps (calculate_z_scores x p s) player_archetype -
        calculate_pps (calculate_z_scores { x with tov := x.tov + δ } p s) player_archetype =
        (pps_weights player_archetype).tov * δ / s.tov := by
      simp only [TimeframeAlgorithm.calculate_pps, TimeframeAlgorithm.calculate_z_scores]
      ring
    have hpos : 0 < (pps_weights player_archetype).tov * δ / s.tov :=
      div_pos (mul_pos w4 hδ) s4
    linarith

/-- Baseline actual-average vector for the C8 witness. -/
def witness_x : StatLine := ⟨0, 0, 0, 0, 0, 0, 0⟩

/-- Dispersion vector of ones for the C8 witness. -/
def witness_s : StatLine := ⟨1, 1, 1, 1, 1, 1, 1⟩

/-- Witness for C8 at δ = 1, unit dispersions, zero baseline, no archetype. -/
theorem claim_C8_pps_monotonicity_witness :
    (0 : ℝ) < 1 ∧ statAllPos witness_s ∧
    (calculate_pps (calculate_z_scores { witness_x with pts := witness_x.pts + 1 }
        witness_x witness_s) none >
      calculate_pps (calculate_z_scores witness_x witness_x witness_s) none ∧
    calculate_pps (calculate_z_scores { witness_x with reb := witness_x.reb + 1 }
        witness_x witness_s) none >
      calculate_pps (calculate_z_scores witness_x witness_x witness_s) none ∧
    calculate_pps (calculate_z_scores { witness_x with ast := witness_x.ast + 1 }
        witness_x witness_s) none >
      calculate_pps (calculate_z_scores witness_x witness_x witness_s) none ∧
    calculate_pps (calculate_z_scores { witness_x with stocks := witness_x.stocks + 1 }
        witness_x witness_s) none >
      calculate_pps (calculate_z_scores witness_x witness_x witness_s) none ∧
    calculate_pps (calculate_z_scores { witness_x with threepm := witness_x.threepm + 1 }
        witness_x witness_s) none >
      calculate_pps (calculate_z_scores witness_x witness_x witness_s) none ∧
    calculate_pps (calculate_z_scores { witness_x with ts_pct := witness_x.ts_pct + 1 }
        witness_x witness_s) none >
      calculate_pps (calculate_z_scores witness_x witness_x witness_s) none ∧
    calculate_pps (calculate_z_scores { witness_x with tov := witness_x.tov + 1 }
        witness_x witness_s) none <
      calculate_pps (calculate_z_scores witness_x witness_x witness_s) none) :=
  ⟨by norm_num, by norm_num [statAllPos, witness_s],
   claim_C8_pps_monotonicity none witness_x witness_s witness_x 1 (by norm_num)
     (by norm_num [statAllPos, witness_s])⟩

end ClaimsE

section ClaimsF

/-- The weekly projection-multiplier block is a no-op at monthly granularity. -/
lemma weekly_adjust_monthly_noop (a : Option String) (p : StatLine) :
    TimeframeAlgorithm.weekly_archetype_adjust a "monthly" p = p := by
  simp [TimeframeAlgorithm.weekly_archetype_adjust]

/-- Stage 1 agreement: projected stats coincide at timeframe "monthly". -/
lemma monthly_proj_eq (season_avg recent_avg : StatLine) (u : Bool)
    (a : Option String) :
    TimeframeAlgorithm.calculate_projected_stats season_avg recent_avg "monthly" u a =
      Except.ok (MonthlyAlgorithm.calculate_projected_stats season_avg recent_avg a) := by
  unfold TimeframeAlgorithm.calculate_projected_stats
    MonthlyAlgorithm.calculate_projected_stats
  rw [if_neg (by decide : ¬ ("monthly" : String) = "weekly"), if_pos rfl,
    weekly_adjust_monthly_noop]
  unfold TimeframeAlgorithm.monthly_archetype_adjust TimeframeAlgorithm.projection_blend
  rfl

/-- Stage 2 agreement: the two monthly alpha tables are the same function. -/
lemma monthly_alphas_eq :
    TimeframeAlgorithm._get_monthly_alphas = MonthlyAlgorithm._get_monthly_alphas := rfl

/-- Stage 2 agreement: standard deviations coincide at timeframe "monthly". -/
lemma monthly_std_eq (p : StatLine) (a : Option String) :
    TimeframeAlgorithm.calculate_standard_deviations p "monthly" a =
      MonthlyAlgorithm.calculate_standard_deviations p a := by
  unfold TimeframeAlgorithm.calculate_standard_deviations
    MonthlyAlgorithm.calculate_standard_deviations
  rw [if_neg (by decide : ¬ ("monthly" : String) = "weekly"), if_pos rfl]
  rfl

/-- Stage 3 agreement: the actual-average computations are the same function. -/
lemma actual_avg_eq :
    TimeframeAlgorithm.calculate_actual_averages = MonthlyAlgorithm.calculate_actual_averages :=
  rfl

/-- Stage 4 agreement: the z-score computations are the same function. -/
lemma z_scores_fun_eq :
    TimeframeAlgorithm.calculate_z_scores = MonthlyAlgorithm.calculate_z_scores := rfl

/-- The weight table the unified `calculate_pps` selects is the one the
monthly `_get_archetype_weights` returns (the falsy default coincides with
the monthly lookup's final fallback). -/
lemma weights_sel_eq (a : Option String) :
    TimeframeAlgorithm.pps_weights a = MonthlyAlgorithm._get_archetype_weights a := by
  cases a with
  | none =>
    simp [TimeframeAlgorithm.pps_weights, falsyStr, TimeframeAlgorithm.default_weights,
      MonthlyAlgorithm._get_archetype_weights]
  | some s =>
    by_cases h : s = ""
    · subst h
      simp [TimeframeAlgorithm.pps_weights, falsyStr, TimeframeAlgorithm.default_weights,
        MonthlyAlgorithm._get_archetype_weights]
    · have hf : falsyStr (some s) = false := by simp [falsyStr, h]
      simp only [TimeframeAlgorithm.pps_weights, hf, Bool.false_eq_true, if_false]
      rfl

/-- Stage 5 agreement: PPS coincides for every z-score vector and archetype. -/
lemma monthly_pps_eq (z : StatLine) (a : Option String) :
    TimeframeAlgorithm.calculate_pps z a = MonthlyAlgorithm.calculate_pps z a := by
  unfold TimeframeAlgorithm.calculate_pps MonthlyAlgorithm.calculate_pps
  rw [weights_sel_eq]

/-- Stage 6/7 agreement: DIS and raw delta are the same functions. -/
lemma dis_fun_eq :
    TimeframeAlgorithm.calculate_dis = MonthlyAlgorithm.calculate_dis := rfl

/-- Stage 7 agreement. -/
lemma raw_delta_fun_eq :
    TimeframeAlgorithm.calculate_raw_delta = MonthlyAlgorithm.calculate_raw_delta := rfl

/-- Stage 8 agreement: dampening coincides at timeframe "monthly" (the Bench
Warmers and Versatile weekly sub-branches are not taken). -/
lemma monthly_dampening_eq (raw_delta : ℝ) (a : Option String) :
    TimeframeAlgorithm.apply_dampening raw_delta "monthly" a =
      MonthlyAlgorithm.apply_dampening raw_delta a := by
  unfold TimeframeAlgorithm.apply_dampening MonthlyAlgorithm.apply_dampening
  simp only [String.reduceEq, true_or, or_true, false_or, or_false, if_true, if_false,
    ite_true, ite_false]

/-- Stage 9 agreement: the price maps are the same function. -/
lemma new_price_fun_eq :
    TimeframeAlgorithm.calculate_new_price = MonthlyAlgorithm.calculate_new_price := rfl

/-- Claim C10: for every input with num_games ≠ 0, the standalone monthly
pipeline and the unified pipeline at timeframe "monthly" return exactly the
same result record (for either value of the season-only use_2023_stats flag). -/
theorem claim_C10_monthly_refinement (actual_totals : StatLine) (num_games : ℤ)
    (season_avg recent_avg : StatLine) (old_price : ℝ) (use_2023_stats : Bool)
    (player_archetype : Option String) (h : num_games ≠ 0) :
    TimeframeAlgorithm.simulate_timeframe actual_totals num_games season_avg recent_avg
        old_price "monthly" use_2023_stats player_archetype =
      Except.ok (MonthlyAlgorithm.simulate_monthly actual_totals num_games season_avg
        recent_avg old_price player_archetype) := by
  unfold TimeframeAlgorithm.simulate_timeframe MonthlyAlgorithm.simulate_monthly
  rw [monthly_proj_eq]
  dsimp only
  rw [Except.ok.injEq]
  ext <;>
    simp only [monthly_std_eq, actual_avg_eq, z_scores_fun_eq, monthly_pps_eq,
      dis_fun_eq, raw_delta_fun_eq, monthly_dampening_eq, new_price_fun_eq]

/-- Witness for C10 at a concrete input with num_games = 4. -/
theorem claim_C10_monthly_refinement_witness :
    (4 : ℤ) ≠ 0 ∧
    TimeframeAlgorithm.simulate_timeframe ⟨80, 20, 20, 8, 6, 8, 2.2⟩ 4
        ⟨20, 5, 5, 2, 1.5, 2, 0.55⟩ ⟨22, 6, 5, 2, 1.5, 2, 0.58⟩ 35 "monthly" false
        (some "Superstars") =
      Except.ok (MonthlyAlgorithm.simulate_monthly ⟨80, 20, 20, 8, 6, 8, 2.2⟩ 4
        ⟨20, 5, 5, 2, 1.5, 2, 0.55⟩ ⟨22, 6, 5, 2, 1.5, 2, 0.58⟩ 35
        (some "Superstars")) :=
  ⟨by decide,
   claim_C10_monthly_refinement ⟨80, 20, 20, 8, 6, 8, 2.2⟩ 4 ⟨20, 5, 5, 2, 1.5, 2, 0.55⟩
     ⟨22, 6, 5, 2, 1.5, 2, 0.58⟩ 35 false (some "Superstars") (by decide)⟩

end ClaimsF
